import Mathlib

/-!
Verification of the startup-advisory backend's two core engines:
the Gate Scoring Engine and the Conversation Stage Engine.

The conversation engine is embedded from
`netlify/functions/crew_runtime.py`.  The gate scoring module
(`backend/src/gate_scoring.py`) is not part of the provided sources
(only its tests in `backend/tests/test_gate_scoring.py` and its caller
`backend/netlify/functions/gate-evaluate.py` are), so its definitions
below are modelled from the specification, constrained by the values the
tests pin down (e.g. DESIRABILITY needs 5 experiments and mean quality
0.7).  Machine floats are modelled as rationals.
-/

namespace GateScoring

/-- The four evidence-maturity stages, in order. -/
inductive GateStage where
  | DESIRABILITY
  | FEASIBILITY
  | VIABILITY
  | SCALE
deriving DecidableEq, Repr

/-- Gate verdicts.  PENDING is reserved for an empty evidence list. -/
inductive GateStatus where
  | PASSED
  | FAILED
  | PENDING
deriving DecidableEq, Repr

/-- Categorical evidence strength (the source also accepts the lowercase
string form and normalizes it; well-formed records carry the category). -/
inductive EvidenceStrength where
  | WEAK
  | MEDIUM
  | STRONG
deriving DecidableEq, Repr

/-- Modelled from the spec: normalization of the enum-or-string duality for
`strength` (`count_strength_mix` "must accept strength supplied either as
the categorical enum or as its raw string form").  The raw string forms are
the lowercase labels. -/
def parseStrength : String ⊕ EvidenceStrength → Option EvidenceStrength
  | Sum.inr s => some s
  | Sum.inl "weak" => some EvidenceStrength.WEAK
  | Sum.inl "medium" => some EvidenceStrength.MEDIUM
  | Sum.inl "strong" => some EvidenceStrength.STRONG
  | Sum.inl _ => none

/-- One well-formed evidence record: a type tag, a normalized strength and a
quality score (a float in [0,1] in the source, modelled as a rational). -/
structure Evidence where
  type : String
  strength : EvidenceStrength
  quality_score : ℚ
deriving DecidableEq, Repr

/-- Minimum counts required per strength label. -/
structure StrengthMix where
  weak : Nat
  medium : Nat
  strong : Nat
deriving DecidableEq, Repr

/-- Configuration for one stage's pass bar. -/
structure GateCriteria where
  min_experiments : Nat
  min_evidence_quality : ℚ
  min_total_evidence : Nat
  required_evidence_types : List String
  strength_mix : StrengthMix
deriving DecidableEq, Repr

/-- Modelled from the spec: `calculate_evidence_quality` is the arithmetic
mean of `quality_score`, and 0.0 for an empty collection. -/
def calculate_evidence_quality (evidence : List Evidence) : ℚ :=
  if evidence.isEmpty then 0
  else (evidence.map Evidence.quality_score).sum / evidence.length

/-- Modelled from the spec: count of items whose type is "experiment". -/
def count_experiments (evidence : List Evidence) : Nat :=
  (evidence.filter (fun e => e.type = "experiment")).length

/-- Modelled from the spec: the distinct type tags present. -/
def get_evidence_types (evidence : List Evidence) : List String :=
  (evidence.map Evidence.type).dedup

/-- Modelled from the spec: tally of evidence by normalized strength label. -/
def count_strength_mix (evidence : List Evidence) : StrengthMix :=
  { weak := (evidence.filter (fun e => e.strength = EvidenceStrength.WEAK)).length
    medium := (evidence.filter (fun e => e.strength = EvidenceStrength.MEDIUM)).length
    strong := (evidence.filter (fun e => e.strength = EvidenceStrength.STRONG)).length }

/-- Modelled from the spec: the default criteria table, strictly escalating
stage-over-stage on `min_experiments`, `min_evidence_quality` and
`min_total_evidence`.  The DESIRABILITY row is pinned by the tests
(5 experiments, mean quality 0.7, required types covering interview /
analytics / experiment, satisfied by an 11-item fixture). -/
def DEFAULT_GATE_CRITERIA : GateStage → GateCriteria
  | GateStage.DESIRABILITY =>
      { min_experiments := 5
        min_evidence_quality := 7/10
        min_total_evidence := 10
        required_evidence_types := ["interview", "analytics", "experiment"]
        strength_mix := { weak := 0, medium := 2, strong := 1 } }
  | GateStage.FEASIBILITY =>
      { min_experiments := 7
        min_evidence_quality := 75/100
        min_total_evidence := 15
        required_evidence_types := ["interview", "analytics", "experiment"]
        strength_mix := { weak := 0, medium := 3, strong := 2 } }
  | GateStage.VIABILITY =>
      { min_experiments := 10
        min_evidence_quality := 8/10
        min_total_evidence := 20
        required_evidence_types := ["interview", "analytics", "experiment"]
        strength_mix := { weak := 0, medium := 4, strong := 3 } }
  | GateStage.SCALE =>
      { min_experiments := 15
        min_evidence_quality := 85/100
        min_total_evidence := 30
        required_evidence_types := ["interview", "analytics", "experiment"]
        strength_mix := { weak := 0, medium := 5, strong := 5 } }

/-- The total-count check: total evidence count meets the bar. -/
def totalCheck (evidence : List Evidence) (c : GateCriteria) : Bool :=
  evidence.length ≥ c.min_total_evidence

/-- The experiments check: experiment count meets the bar. -/
def experimentsCheck (evidence : List Evidence) (c : GateCriteria) : Bool :=
  count_experiments evidence ≥ c.min_experiments

/-- The mean-quality check, inclusive at the boundary. -/
def qualityCheck (evidence : List Evidence) (c : GateCriteria) : Bool :=
  calculate_evidence_quality evidence ≥ c.min_evidence_quality

/-- The required-types check: every required tag occurs at least once. -/
def typesCheck (evidence : List Evidence) (c : GateCriteria) : Bool :=
  c.required_evidence_types.all (fun t => (get_evidence_types evidence).contains t)

/-- The strength-mix check: every per-strength minimum is met. -/
def mixCheck (evidence : List Evidence) (c : GateCriteria) : Bool :=
  let mix := count_strength_mix evidence
  mix.weak ≥ c.strength_mix.weak ∧ mix.medium ≥ c.strength_mix.medium ∧
    mix.strong ≥ c.strength_mix.strong

/-- Human-readable reason emitted when the total-count check fails. -/
def totalReason (evidence : List Evidence) (c : GateCriteria) : String :=
  let needed := c.min_total_evidence
  let got := evidence.length
  s!"Insufficient evidence: needed {needed}, got {got}"

/-- Human-readable reason emitted when the experiments check fails
(format pinned by the spec example "Insufficient experiments: needed 5,
got 3"). -/
def experimentsReason (evidence : List Evidence) (c : GateCriteria) : String :=
  let needed := c.min_experiments
  let got := count_experiments evidence
  s!"Insufficient experiments: needed {needed}, got {got}"

/-- Human-readable reason emitted when the mean-quality check fails (the
spec requires the phrase "Evidence quality too low" to appear). -/
def qualityReason : String := "Evidence quality too low"

/-- Human-readable reason emitted when a required type is absent, naming
the missing types. -/
def typesReason (evidence : List Evidence) (c : GateCriteria) : String :=
  let missing :=
    String.intercalate ", "
      (c.required_evidence_types.filter
        (fun t => ¬ (get_evidence_types evidence).contains t))
  s!"Missing required evidence types: {missing}"

/-- Human-readable reason emitted when the strength-mix check fails. -/
def mixReason : String := "Insufficient strength mix"

/-- Modelled from the spec: the reasons collected by `evaluate_gate` for a
non-empty evidence list — every failing check appends its reason, with no
short-circuiting. -/
def gateReasons (evidence : List Evidence) (c : GateCriteria) : List String :=
  (if totalCheck evidence c then [] else [totalReason evidence c]) ++
  (if experimentsCheck evidence c then [] else [experimentsReason evidence c]) ++
  (if qualityCheck evidence c then [] else [qualityReason]) ++
  (if typesCheck evidence c then [] else [typesReason evidence c]) ++
  (if mixCheck evidence c then [] else [mixReason])

/-- Modelled from the spec: `evaluate_gate` — PENDING with no reasons on an
empty evidence list; otherwise PASSED exactly when no check failed, else
FAILED with all failing checks' reasons.  `criteria = none` selects the
stage's row of `DEFAULT_GATE_CRITERIA`. -/
def evaluate_gate (stage : GateStage) (evidence : List Evidence)
    (criteria : Option GateCriteria := none) : GateStatus × List String :=
  let c := criteria.getD (DEFAULT_GATE_CRITERIA stage)
  if evidence.isEmpty then (GateStatus.PENDING, [])
  else
    let reasons := gateReasons evidence c
    (if reasons.isEmpty then GateStatus.PASSED else GateStatus.FAILED, reasons)

/-- Modelled from the spec: DESIRABILITY→FEASIBILITY→VIABILITY→SCALE→none. -/
def get_next_stage : GateStage → Option GateStage
  | GateStage.DESIRABILITY => some GateStage.FEASIBILITY
  | GateStage.FEASIBILITY => some GateStage.VIABILITY
  | GateStage.VIABILITY => some GateStage.SCALE
  | GateStage.SCALE => none

/-- Modelled from the spec: progression requires a PASSED status and an
existing successor stage. -/
def can_progress_to_next_stage (stage : GateStage) (status : GateStatus) : Bool :=
  status = GateStatus.PASSED ∧ (get_next_stage stage).isSome

/-- Number of failing checks among the five independent checks. -/
def failingChecks (evidence : List Evidence) (c : GateCriteria) : Nat :=
  (if totalCheck evidence c then 0 else 1) +
  (if experimentsCheck evidence c then 0 else 1) +
  (if qualityCheck evidence c then 0 else 1) +
  (if typesCheck evidence c then 0 else 1) +
  (if mixCheck evidence c then 0 else 1)

/-- Modelled from the spec: `calculate_gate_readiness_score` — 0.0 for empty
evidence, else the equal-weight average of four sub-scores: fraction of the
total-evidence threshold met (capped at 1), fraction of the experiment
threshold met (capped at 1), the mean quality score, and the fraction of
required types covered.  Equal weighting is the documented choice the spec
explicitly permits. -/
def calculate_gate_readiness_score (stage : GateStage)
    (evidence : List Evidence) : ℚ :=
  let c := DEFAULT_GATE_CRITERIA stage
  if evidence.isEmpty then 0
  else
    let totalFrac := min ((evidence.length : ℚ) / c.min_total_evidence) 1
    let expFrac := min ((count_experiments evidence : ℚ) / c.min_experiments) 1
    let quality := calculate_evidence_quality evidence
    let covered :=
      (c.required_evidence_types.filter
        (fun t => (get_evidence_types evidence).contains t)).length
    let typesFrac := (covered : ℚ) / c.required_evidence_types.length
    (totalFrac + expFrac + quality + typesFrac) / 4

end GateScoring

namespace CrewRuntime

/-!
Shallow embedding of the Conversation Stage Engine from
`netlify/functions/crew_runtime.py` (class `ConversationEngine`).
Python floats become rationals; Python string slicing (`s[:n]`, by code
points) becomes `take` on the character list; `datetime.utcnow()` becomes
an explicit `now` argument so the dependence on the wall clock is visible
in the model.
-/

/-- One entry of the conversation history.  The engine reads only the
length of the history list, never its entries. -/
structure HistoryTurn where
  role : String
  content : String
deriving DecidableEq, Repr

/-- Static configuration of one conversation stage (`CONVERSATION_STAGES`
values). -/
structure StageConfig where
  name : String
  description : String
  key_questions : List String
  data_to_collect : List String
  progress_threshold : Nat
deriving DecidableEq, Repr

/-- The 7-stage table `CONVERSATION_STAGES`, keyed by stage number. -/
def CONVERSATION_STAGES : Int → Option StageConfig
  | 1 => some
      { name := "Welcome & Introduction"
        description := "Getting to know you and your business idea"
        key_questions := ["What business idea are you most excited about?",
          "What inspired this idea?",
          "What stage is your business currently in?"]
        data_to_collect := ["business_concept", "inspiration", "current_stage"]
        progress_threshold := 80 }
  | 2 => some
      { name := "Customer Discovery"
        description := "Understanding your target customers"
        key_questions := ["Who do you think would be most interested in this solution?",
          "What specific group of people have this problem most acutely?",
          "How do these customers currently solve this problem?"]
        data_to_collect := ["target_customers", "customer_segments", "current_solutions"]
        progress_threshold := 75 }
  | 3 => some
      { name := "Problem Definition"
        description := "Defining the core problem you\x27re solving"
        key_questions := ["What specific problem does your solution address?",
          "How painful is this problem for your customers?",
          "How often do they encounter this problem?"]
        data_to_collect := ["problem_description", "pain_level", "frequency"]
        progress_threshold := 80 }
  | 4 => some
      { name := "Solution Validation"
        description := "Exploring your proposed solution"
        key_questions := ["How does your solution solve this problem?",
          "What makes your approach unique?",
          "What\x27s your key differentiator?"]
        data_to_collect := ["solution_description", "unique_value_prop", "differentiation"]
        progress_threshold := 75 }
  | 5 => some
      { name := "Competitive Analysis"
        description := "Understanding the competitive landscape"
        key_questions := ["Who else is solving this problem?",
          "What alternatives do customers have?",
          "What would make customers switch to your solution?"]
        data_to_collect := ["competitors", "alternatives", "switching_barriers"]
        progress_threshold := 70 }
  | 6 => some
      { name := "Resources & Constraints"
        description := "Assessing your available resources"
        key_questions := ["What\x27s your budget for getting started?",
          "What skills and resources do you have available?",
          "What are your main constraints?"]
        data_to_collect := ["budget_range", "available_resources", "constraints"]
        progress_threshold := 75 }
  | 7 => some
      { name := "Goals & Next Steps"
        description := "Setting strategic goals and priorities"
        key_questions := ["What do you want to achieve in the next 3 months?",
          "How will you measure success?",
          "What\x27s your biggest priority right now?"]
        data_to_collect := ["short_term_goals", "success_metrics", "priorities"]
        progress_threshold := 85 }
  | _ => none

/-- Number of stages (`len(CONVERSATION_STAGES)`). -/
def TOTAL_STAGES : Nat := 7

/-- An agent persona from `PLAN_PERSONALITIES`. -/
structure PlanPersona where
  name : String
  role : String
  tone : String
  expertise : String
deriving DecidableEq, Repr

/-- The `PLAN_PERSONALITIES` table. -/
def PLAN_PERSONALITIES : String → Option PlanPersona
  | "trial" => some ⟨"Alex", "Strategic Consultant", "encouraging and supportive", "early-stage validation"⟩
  | "sprint" => some ⟨"Jordan", "Business Strategist", "focused and analytical", "rapid validation and testing"⟩
  | "founder" => some ⟨"Morgan", "Senior Strategy Advisor", "experienced and insightful", "scaling and growth strategies"⟩
  | "enterprise" => some ⟨"Taylor", "Executive Consultant", "sophisticated and comprehensive", "enterprise-level strategic planning"⟩
  | _ => none

/-- The five specificity markers of `SPECIFICITY_PATTERN` (matched with
word boundaries, case-insensitively). -/
def SPECIFICITY_WORDS : List String :=
  ["specifically", "exactly", "particularly", "mainly", "primarily"]

/-- The `PAIN_WORDS` lexicon. -/
def PAIN_WORDS : List String :=
  ["painful", "frustrating", "difficult", "expensive", "time-consuming", "annoying"]

/-- A whitespace character stripped by Python `str.strip()` (ASCII
fragment). -/
def isPySpace (c : Char) : Bool :=
  c = ' ' || c = '\t' || c = '\n' || c = '\x0d' || c = '\x0b' || c = '\x0c'

/-- Python `str.strip()`: removes leading and trailing whitespace. -/
def pyStrip (s : String) : String :=
  String.mk (((s.data.dropWhile isPySpace).reverse.dropWhile isPySpace).reverse)

/-- ASCII lowering of one character, modelling Python `str.lower()` on the
ASCII fragment the heuristics exercise. -/
def asciiLower (c : Char) : Char :=
  if 'A' ≤ c ∧ c ≤ 'Z' then Char.ofNat (c.toNat + 32) else c

/-- Python `str.lower()`. -/
def lowerString (s : String) : String := String.mk (s.data.map asciiLower)

/-- A word character for the regex word boundary, modelling `\\w` over the
ASCII fragment exercised by the heuristics. -/
def isWordChar (c : Char) : Bool := c.isAlphanum || c = '_'

/-- Splits a character list into its maximal runs of word characters, the
accumulator holding the current run reversed. -/
def wordRunsAux : List Char → List Char → List String
  | [], acc => if acc.isEmpty then [] else [String.mk acc.reverse]
  | c :: rest, acc =>
    if isWordChar c then wordRunsAux rest (c :: acc)
    else if acc.isEmpty then wordRunsAux rest []
    else String.mk acc.reverse :: wordRunsAux rest []

/-- The maximal word-character runs of a string. -/
def wordRuns (s : String) : List String := wordRunsAux s.data []

/-- `SPECIFICITY_PATTERN.search(message)`: a case-insensitive
word-boundary search succeeds exactly when some maximal word run of the
lowercased message is one of the marker words. -/
def hasSpecificityMarker (s : String) : Bool :=
  SPECIFICITY_WORDS.any (fun w => (wordRuns (lowerString s)).contains w)

/-- Whether the first list is a prefix of the second. -/
def isPrefixList : List Char → List Char → Bool
  | [], _ => true
  | _ :: _, [] => false
  | a :: as, b :: bs => a = b && isPrefixList as bs

/-- Whether the needle occurs as a contiguous sublist of the haystack. -/
def subOccurs (needle : List Char) : List Char → Bool
  | [] => needle.isEmpty
  | c :: rest => isPrefixList needle (c :: rest) || subOccurs needle rest

/-- Python substring containment (`needle in haystack`). -/
def containsSub (haystack needle : String) : Bool :=
  subOccurs needle.data haystack.data

/-- A character the budget regex class `[\\d,]` accepts. -/
def isBudgetChar (c : Char) : Bool := c.isDigit || c = ','

/-- Left-to-right scan for the first (greedy) match of
`BUDGET_PATTERN = \\$[\\d,]+`. -/
def findBudgetAux : List Char → Option String
  | [] => none
  | c :: rest =>
    if c = '$' then
      let run := rest.takeWhile isBudgetChar
      if run.isEmpty then findBudgetAux rest
      else some (String.mk ('$' :: run))
    else findBudgetAux rest

/-- `BUDGET_PATTERN.search(s)` returning the matched text, if any. -/
def findBudget (s : String) : Option String := findBudgetAux s.data

/-- Python slicing `s[:n]` (by code points). -/
def truncate (s : String) (n : Nat) : String := String.mk (s.data.take n)

/-- The fixed clarity score table `CLARITY_SCORES`. -/
def CLARITY_SCORES : String → ℚ
  | "high" => 92/100
  | "medium" => 68/100
  | "low" => 38/100
  | _ => 0

/-- The fixed completeness score table `COMPLETENESS_SCORES`. -/
def COMPLETENESS_SCORES : String → ℚ
  | "complete" => 1
  | "partial" => 66/100
  | "insufficient" => 35/100
  | _ => 0

/-- `_clamp(value, lower, upper)`. -/
def clamp (value lower upper : ℚ) : ℚ := max lower (min upper value)

/-- Round half to even to an integer, modelling the exact behaviour of
Python `round` on the rational value (the source rounds binary doubles;
values produced by the engine are short decimals where the two agree). -/
def roundHalfEven (q : ℚ) : ℤ :=
  let f := ⌊q⌋
  if q - f < 1/2 then f
  else if 1/2 < q - f then f + 1
  else if f % 2 = 0 then f else f + 1

/-- Python `round(q, 2)`. -/
def round2 (q : ℚ) : ℚ := (roundHalfEven (q * 100) : ℚ) / 100

/-- The partial brief update extracted from one message (absent keys are
`none`). -/
structure BriefUpdate where
  budget_range : Option String := none
  business_stage : Option String := none
  customer_type : Option String := none
  problem_description : Option String := none
  problem_pain_level : Option Nat := none
  solution_description : Option String := none
  solution_type : Option String := none
  three_month_goals : Option (List String) := none
deriving DecidableEq, Repr

/-- The brief update with no keys set. -/
def emptyBrief : BriefUpdate := {}

/-- `sorted(brief_update.keys())`: the set keys, in alphabetical order. -/
def briefFields (b : BriefUpdate) : List String :=
  (if b.budget_range.isSome then ["budget_range"] else []) ++
  (if b.business_stage.isSome then ["business_stage"] else []) ++
  (if b.customer_type.isSome then ["customer_type"] else []) ++
  (if b.problem_description.isSome then ["problem_description"] else []) ++
  (if b.problem_pain_level.isSome then ["problem_pain_level"] else []) ++
  (if b.solution_description.isSome then ["solution_description"] else []) ++
  (if b.solution_type.isSome then ["solution_type"] else []) ++
  (if b.three_month_goals.isSome then ["three_month_goals"] else [])

/-- A clarity or completeness signal: a label with its fixed score. -/
structure QualityLabel where
  label : String
  score : ℚ
deriving DecidableEq, Repr

/-- The nested `quality` object of a stage snapshot. -/
structure SnapshotQuality where
  clarity : QualityLabel
  completeness : QualityLabel
  detail_score : ℚ
deriving DecidableEq, Repr

/-- The `stage_snapshot` record built by `_build_stage_snapshot`. -/
structure StageSnapshot where
  stage : Nat
  coverage : ℚ
  quality : SnapshotQuality
  brief_fields : List String
  last_message_excerpt : String
  updated_at : String
  notes : String
deriving DecidableEq, Repr

/-- `_build_stage_snapshot`; `now` stands for `datetime.utcnow().isoformat()`. -/
def buildStageSnapshot (stage_id : Nat) (coverage : ℚ)
    (clarity_label completeness_label : String) (detail_score : ℚ)
    (brief_update : BriefUpdate) (raw_message : Option String)
    (now : String) : StageSnapshot :=
  { stage := stage_id
    coverage := clamp coverage 0 1
    quality :=
      { clarity := ⟨clarity_label, CLARITY_SCORES clarity_label⟩
        completeness := ⟨completeness_label, COMPLETENESS_SCORES completeness_label⟩
        detail_score := detail_score }
    brief_fields := briefFields brief_update
    last_message_excerpt := truncate (raw_message.getD "") 240
    updated_at := now
    notes :=
      if completeness_label = "complete" then "Stage advanced"
      else "Additional detail captured" }

end CrewRuntime

namespace CrewRuntime

/-- The `stage_state` payload returned by `process_message`. -/
structure StageStatePayload where
  previous_stage : Nat
  current_stage : Nat
  stage_name : String
  next_stage_name : String
  stage_progress : Nat
  overall_progress : ℚ
  is_stage_complete : Bool
  total_stages : Nat
deriving DecidableEq, Repr

/-- The `quality_signals` payload returned by `process_message`. -/
structure QualitySignals where
  clarity : QualityLabel
  completeness : QualityLabel
  detail_score : ℚ
  overall : ℚ
  suggestions : List String
  encouragement : String
  quality_tags : List String
deriving DecidableEq, Repr

/-- The `system_actions` payload. -/
structure SystemActions where
  trigger_workflow : Bool
  save_checkpoint : Bool
  request_clarification : Bool
  needs_review : Bool
deriving DecidableEq, Repr

/-- The `conversation_metrics` payload. -/
structure ConversationMetrics where
  stage_progress : Nat
  overall_progress : ℚ
  clarity_label : String
  completeness_label : String
deriving DecidableEq, Repr

/-- The full result dictionary of `process_message`. -/
structure MessageResult where
  agent_response : String
  follow_up_question : String
  brief_update : BriefUpdate
  quality_signals : QualitySignals
  stage_state : StageStatePayload
  stage_snapshot : StageSnapshot
  system_actions : SystemActions
  conversation_metrics : ConversationMetrics
deriving DecidableEq, Repr

/-- `stage_id = current_stage if current_stage in CONVERSATION_STAGES else 1`. -/
def stageIdOf (current_stage : Int) : Nat :=
  if (CONVERSATION_STAGES current_stage).isSome then current_stage.toNat else 1

/-- The stage configuration for an in-range stage id (ids produced by
`stageIdOf` are always in 1..7, so the fallback row is never consulted). -/
def stageConfig (stage_id : Nat) : StageConfig :=
  (CONVERSATION_STAGES stage_id).getD
    { name := "", description := "", key_questions := [],
      data_to_collect := [], progress_threshold := 0 }

/-- The per-stage branch of `process_message`: canned agent response, the
branch-local follow-up question, and the extracted brief update.  Keyed by
the stage number exactly as the source's `if stage_id == k` chain. -/
def stageBranch (stage_id : Nat) (message_clean message_lower : String)
    (is_stage_complete : Bool) : String × String × BriefUpdate :=
  match stage_id with
  | 1 =>
    let (resp, brief) :=
      if containsSub message_lower "app" || containsSub message_lower "software" then
        ("A software solution - that\x27s exciting! The digital space offers incredible opportunities for scalability and impact. ",
         { emptyBrief with business_stage := some "idea", solution_type := some "software" })
      else if containsSub message_lower "service" || containsSub message_lower "consulting" then
        ("A service-based business can be a great way to start with lower upfront costs and direct customer feedback. ",
         { emptyBrief with business_stage := some "idea", solution_type := some "service" })
      else
        ("Thank you for sharing that with me! I can hear the passion in your description. ",
         emptyBrief)
    if is_stage_complete then
      (resp ++ "Now that I understand your core concept, let\x27s dive deeper into who this would serve. ",
       "Who do you envision as your ideal customer? Think about the specific type of person or business that would get the most value from what you\x27re creating.",
       brief)
    else
      (resp,
       "Can you tell me more about what inspired this idea? What problem or opportunity did you notice that led you here?",
       brief)
  | 2 =>
    let (resp, brief) :=
      if containsSub message_lower "business" || containsSub message_lower "company" then
        ("B2B customers can be fantastic - they often have bigger budgets and longer-term relationships. ",
         { emptyBrief with customer_type := some "b2b" })
      else if containsSub message_lower "people" || containsSub message_lower "individual" then
        ("Consumer markets offer great opportunities for scale and direct impact. ",
         { emptyBrief with customer_type := some "b2c" })
      else
        ("", emptyBrief)
    let resp := resp ++ "Understanding your customers deeply is crucial for success. "
    if is_stage_complete then
      (resp,
       "Perfect! Now let\x27s get specific about the problem you\x27re solving. What exact pain point or challenge do these customers face that your solution addresses?",
       brief)
    else
      (resp,
       "Can you be more specific about this customer segment? What characteristics do they share? What\x27s their situation that makes them need your solution?",
       brief)
  | 3 =>
    let has_pain_language := PAIN_WORDS.any (fun w => containsSub message_lower w)
    let (resp, pain) :=
      if has_pain_language then
        ("I can tell this is a real pain point - that emotional language tells me customers would be motivated to find a solution. ", 8)
      else
        ("Thanks for explaining that. Understanding the problem clearly is essential for building the right solution. ", 6)
    let brief : BriefUpdate :=
      { emptyBrief with
          problem_pain_level := some pain
          problem_description := some (truncate message_clean 500) }
    if is_stage_complete then
      (resp,
       "Excellent! Now I\x27d love to understand your solution. How exactly do you plan to solve this problem? What\x27s your approach?",
       brief)
    else
      (resp,
       "Help me understand the impact of this problem. How often do your customers encounter it, and what does it cost them when they do?",
       brief)
  | 4 =>
    let brief : BriefUpdate :=
      { emptyBrief with solution_description := some (truncate message_clean 500) }
    let resp :=
      if containsSub message_lower "unique" || containsSub message_lower "different" then
        "I love that you\x27re thinking about differentiation! That\x27s what will make customers choose you over alternatives. "
      else
        "That\x27s a solid approach to solving the problem. "
    if is_stage_complete then
      (resp,
       "Great solution! Now let\x27s look at the competitive landscape. Who else is trying to solve this problem, and how are customers handling it today?",
       brief)
    else
      (resp,
       "What makes your solution unique? Why would customers choose your approach over other ways of solving this problem?",
       brief)
  | 5 =>
    let resp := "Understanding the competition helps you position yourself effectively and identify opportunities. "
    let resp :=
      if containsSub message_lower "no competition" || containsSub message_lower "no one else" then
        resp ++ "While it might seem like there\x27s no direct competition, customers are always solving this problem somehow - even if it\x27s manual processes or workarounds. "
      else resp
    if is_stage_complete then
      (resp,
       "Perfect! Now let\x27s talk resources. What\x27s your budget range for getting this business started, and what skills or assets do you already have?",
       emptyBrief)
    else
      (resp,
       "What would convince a customer to switch from their current solution to yours? What\x27s the compelling reason to change?",
       emptyBrief)
  | 6 =>
    let budget_match := findBudget message_clean
    let (resp, brief) :=
      if budget_match.isSome || containsSub message_lower "thousand" || containsSub message_lower "budget" then
        ("Having a clear budget helps with planning and prioritization. ",
         { emptyBrief with budget_range := some (budget_match.getD "specified") })
      else
        ("", emptyBrief)
    let resp := resp ++ "Understanding your resources helps us create a realistic roadmap. "
    if is_stage_complete then
      (resp,
       "Excellent! For our final topic, let\x27s set some strategic goals. What do you want to achieve with this business in the next 3 months?",
       brief)
    else
      (resp,
       "What skills, connections, or assets do you already have that could help with this business? And what are your biggest constraints or limitations?",
       brief)
  | 7 =>
    let resp := "Setting clear, measurable goals is crucial for making progress and staying motivated. "
    let brief : BriefUpdate :=
      { emptyBrief with three_month_goals := some [truncate message_clean 200] }
    if is_stage_complete then
      (resp ++ "Fantastic! We\x27ve covered all the key areas. I have everything I need to create your comprehensive strategic analysis. ",
       "Before I generate your personalized strategic report, is there anything else about your business idea that you think is important for me to know?",
       brief)
    else
      (resp,
       "How will you measure success? What specific metrics or milestones will tell you that you\x27re making progress?",
       brief)
  | _ => ("", "", emptyBrief)

/-- `ConversationEngine.process_message`.  `conversation_history` and
`stage_data` mirror the optional Python arguments (the engine reads only
the history's length and never reads `stage_data`); `now` stands for the
`datetime.utcnow().isoformat()` timestamp taken while building the
snapshot. -/
def processMessage (session_id : String) (message : String)
    (current_stage : Int) (conversation_history : List HistoryTurn)
    (stage_data : List (String × String)) (now : String) : MessageResult :=
  let stage_id := stageIdOf current_stage
  let config := stageConfig stage_id
  let history := conversation_history
  let message_clean := pyStrip message
  let message_lower := lowerString message_clean
  let has_details := message_clean.length > 50
  let has_specifics := hasSpecificityMarker message_clean
  let stage_progress :=
    min 100
      (history.length * 15 + (if has_details then 20 else 10) +
        (if has_specifics then 15 else 0))
  let overall_progress : ℚ :=
    min 100 (((stage_id : ℚ) - 1) * 14 + (stage_progress : ℚ) * (14/100))
  let is_stage_complete := stage_progress ≥ config.progress_threshold
  let next_stage :=
    if is_stage_complete ∧ stage_id < TOTAL_STAGES then stage_id + 1 else stage_id
  let (agent_response, follow_up_question, brief_update) :=
    stageBranch stage_id message_clean message_lower is_stage_complete
  let clarity_label :=
    if has_details ∧ has_specifics then "high"
    else if has_details then "medium" else "low"
  let completeness_label :=
    if is_stage_complete then "complete"
    else if stage_progress > 50 then "partial" else "insufficient"
  let suggestions :=
    (if ¬ has_details then
      ["Try to provide more specific details to help me understand your situation better."]
     else []) ++
    (if stage_progress < 50 then
      ["Consider sharing examples or specific scenarios to illustrate your points."]
     else [])
  let quality_tags :=
    (if clarity_label = "low" then ["clarity_low"] else []) ++
    (if completeness_label = "insufficient" then ["incomplete"] else [])
  let detail_score : ℚ := round2 ((stage_progress : ℚ) / 100)
  let quality_signals : QualitySignals :=
    { clarity := ⟨clarity_label, CLARITY_SCORES clarity_label⟩
      completeness := ⟨completeness_label, COMPLETENESS_SCORES completeness_label⟩
      detail_score := detail_score
      overall :=
        round2 ((CLARITY_SCORES clarity_label + COMPLETENESS_SCORES completeness_label +
          detail_score) / 3)
      suggestions := suggestions
      encouragement := "You\x27re making great progress! Your insights are helping build a comprehensive picture of your business opportunity."
      quality_tags := quality_tags }
  let stage_snapshot :=
    buildStageSnapshot stage_id detail_score clarity_label completeness_label
      detail_score brief_update (some message_clean) now
  let stage_state_payload : StageStatePayload :=
    { previous_stage := stage_id
      current_stage := next_stage
      stage_name := config.name
      next_stage_name :=
        if next_stage > stage_id then (stageConfig next_stage).name else config.name
      stage_progress := if next_stage > stage_id then 0 else stage_progress
      overall_progress := overall_progress
      is_stage_complete := is_stage_complete
      total_stages := TOTAL_STAGES }
  let system_actions : SystemActions :=
    { trigger_workflow := stage_id = 7 ∧ is_stage_complete
      save_checkpoint := is_stage_complete
      request_clarification := stage_progress < 30 ∨ clarity_label = "low"
      needs_review := clarity_label = "low" ∨ completeness_label = "insufficient" }
  let conversation_metrics : ConversationMetrics :=
    { stage_progress := if next_stage = stage_id then stage_progress else 0
      overall_progress := overall_progress
      clarity_label := clarity_label
      completeness_label := completeness_label }
  { agent_response := agent_response
    follow_up_question :=
      if is_stage_complete ∧ next_stage > stage_id then "" else follow_up_question
    brief_update := brief_update
    quality_signals := quality_signals
    stage_state := stage_state_payload
    stage_snapshot := stage_snapshot
    system_actions := system_actions
    conversation_metrics := conversation_metrics }

/-- The `stage_state` record of `start_session`. -/
structure StartStageState where
  current_stage : Nat
  stage_name : String
  total_stages : Nat
  stage_progress : Nat
  overall_progress : Nat
  summary : String
deriving DecidableEq, Repr

/-- The `quality_signals` record of `start_session` (a seeded baseline, no
suggestions key). -/
structure StartQualitySignals where
  clarity : QualityLabel
  completeness : QualityLabel
  detail_score : ℚ
  overall : ℚ
  encouragement : String
  quality_tags : List String
deriving DecidableEq, Repr

/-- The `context` record of `start_session`. -/
structure SessionContext where
  agentPersonality : PlanPersona
  expectedOutcomes : List String
  privacyNotice : String
deriving DecidableEq, Repr

/-- The full result of `start_session`. -/
structure SessionSeed where
  introduction : String
  first_question : String
  context : SessionContext
  stage_state : StartStageState
  stage_snapshot : StageSnapshot
  quality_signals : StartQualitySignals
  estimated_duration : String
  user_context : List (String × String)
deriving DecidableEq, Repr

/-- `ConversationEngine.start_session`; `now` stands for the wall-clock
timestamp read while building the snapshot. -/
def startSession (plan_type : String)
    (user_context : Option (List (String × String))) (now : String) : SessionSeed :=
  let persona := (PLAN_PERSONALITIES plan_type).getD
    ⟨"Alex", "Strategic Consultant", "encouraging and supportive", "early-stage validation"⟩
  let introduction :=
    "Hi! I\x27m " ++ persona.name ++ ", your " ++ persona.role ++ ". " ++
    "I\x27m here to help you develop a comprehensive strategic analysis of your business idea. I\x27ll guide you through a structured conversation to understand your vision, validate your assumptions, and create actionable insights."
  let first_question :=
    "Let\x27s start with the big picture. What\x27s the business idea or opportunity you\x27re most excited about right now? Don\x27t worry about having all the details figured out - I\x27m here to help you think through everything systematically."
  let stage_snapshot :=
    buildStageSnapshot 1 0 "medium" "partial" (5/100) emptyBrief none now
  { introduction := introduction
    first_question := first_question
    context :=
      { agentPersonality := persona
        expectedOutcomes :=
          ["Comprehensive entrepreneur brief",
           "Strategic recommendations",
           "Validation plan with specific next steps",
           "Business model canvas",
           "Competitive analysis",
           "Resource allocation strategy"]
        privacyNotice := "Your conversation is private and secure. All information shared will be used solely to provide personalized strategic guidance and will not be shared with third parties." }
    stage_state :=
      { current_stage := 1
        stage_name := (stageConfig 1).name
        total_stages := TOTAL_STAGES
        stage_progress := 0
        overall_progress := 0
        summary := (stageConfig 1).description }
    stage_snapshot := stage_snapshot
    quality_signals :=
      { clarity := ⟨"medium", CLARITY_SCORES "medium"⟩
        completeness := ⟨"partial", COMPLETENESS_SCORES "partial"⟩
        detail_score := 5/100
        overall := round2 ((CLARITY_SCORES "medium" + COMPLETENESS_SCORES "partial" + 5/100) / 3)
        encouragement := "Let\x27s explore your vision together and capture the details that matter."
        quality_tags := ["needs_detail"] }
    estimated_duration := "20-25 minutes"
    user_context := user_context.getD [] }

end CrewRuntime

namespace GateEvaluate

/-!
Embedding of the stage-validation step of the HTTP handler in
`backend/netlify/functions/gate-evaluate.py`: `GateStage[stage_str]`
raising `KeyError` is answered with a 400 validation error, before any
engine call. -/

/-- `GateStage[stage_str]`: enum lookup by member name. -/
def parseGateStage : String → Option GateScoring.GateStage
  | "DESIRABILITY" => some GateScoring.GateStage.DESIRABILITY
  | "FEASIBILITY" => some GateScoring.GateStage.FEASIBILITY
  | "VIABILITY" => some GateScoring.GateStage.VIABILITY
  | "SCALE" => some GateScoring.GateStage.SCALE
  | _ => none

/-- The handler's stage-validation step: an unknown stage key becomes a 400
validation error surfaced to the caller; a known key proceeds with the
parsed stage. -/
def validateStage (stage_str : String) : Except (Nat × String) GateScoring.GateStage :=
  match parseGateStage stage_str with
  | some stage => Except.ok stage
  | none =>
      Except.error (400,
        s!"Invalid stage: {stage_str}. Must be DESIRABILITY, FEASIBILITY, VIABILITY, or SCALE")

end GateEvaluate

namespace CrewRuntime

/-- A message result with the wall-clock timestamp field blanked, used to
state that the clock influences nothing but `stage_snapshot.updated_at`. -/
def eraseTimestamp (r : MessageResult) : MessageResult :=
  { r with stage_snapshot := { r.stage_snapshot with updated_at := "" } }

/-- A session seed with the wall-clock timestamp field blanked. -/
def eraseSeedTimestamp (s : SessionSeed) : SessionSeed :=
  { s with stage_snapshot := { s.stage_snapshot with updated_at := "" } }

/-- A 50-character message (no surrounding whitespace) that contains the
specificity marker "specifically". -/
def fiftyCharMessage : String :=
  "specifically abcdefghijklmnopqrstuvwxyz0123456789!"

/-- A six-turn conversation history. -/
def sixTurnHistory : List HistoryTurn :=
  List.replicate 6 ⟨"user", "placeholder"⟩

end CrewRuntime

namespace GateScoring

/-- The 11-item DESIRABILITY fixture of
`test_evaluate_desirability_gate_pass` (3 interviews, 2 analytics,
5 experiments, 1 desk; mean quality 848/1100). -/
def desirabilityPassingEvidence : List Evidence :=
  [⟨"interview", EvidenceStrength.STRONG, 9/10⟩,
   ⟨"interview", EvidenceStrength.STRONG, 85/100⟩,
   ⟨"interview", EvidenceStrength.MEDIUM, 8/10⟩,
   ⟨"analytics", EvidenceStrength.MEDIUM, 75/100⟩,
   ⟨"analytics", EvidenceStrength.MEDIUM, 8/10⟩,
   ⟨"experiment", EvidenceStrength.STRONG, 9/10⟩,
   ⟨"experiment", EvidenceStrength.MEDIUM, 75/100⟩,
   ⟨"experiment", EvidenceStrength.MEDIUM, 7/10⟩,
   ⟨"experiment", EvidenceStrength.MEDIUM, 72/100⟩,
   ⟨"experiment", EvidenceStrength.MEDIUM, 71/100⟩,
   ⟨"desk", EvidenceStrength.WEAK, 6/10⟩]

/-- The 11-item boundary fixture of `test_evaluate_gate_boundary_quality`:
every item has quality exactly 0.7, so the mean is exactly the
DESIRABILITY `min_evidence_quality`. -/
def boundaryEvidence : List Evidence :=
  [⟨"interview", EvidenceStrength.STRONG, 7/10⟩,
   ⟨"interview", EvidenceStrength.STRONG, 7/10⟩,
   ⟨"interview", EvidenceStrength.MEDIUM, 7/10⟩,
   ⟨"analytics", EvidenceStrength.MEDIUM, 7/10⟩,
   ⟨"analytics", EvidenceStrength.MEDIUM, 7/10⟩,
   ⟨"experiment", EvidenceStrength.STRONG, 7/10⟩,
   ⟨"experiment", EvidenceStrength.MEDIUM, 7/10⟩,
   ⟨"experiment", EvidenceStrength.MEDIUM, 7/10⟩,
   ⟨"experiment", EvidenceStrength.MEDIUM, 7/10⟩,
   ⟨"experiment", EvidenceStrength.MEDIUM, 7/10⟩,
   ⟨"desk", EvidenceStrength.WEAK, 7/10⟩]

/-- Twelve items of uniform quality 0.8 that saturate every DESIRABILITY
sub-score of the readiness formula (12 ≥ 10 total, 6 ≥ 5 experiments, all
required types present). -/
def saturatedEvidence : List Evidence :=
  [⟨"interview", EvidenceStrength.STRONG, 8/10⟩,
   ⟨"interview", EvidenceStrength.STRONG, 8/10⟩,
   ⟨"interview", EvidenceStrength.MEDIUM, 8/10⟩,
   ⟨"analytics", EvidenceStrength.MEDIUM, 8/10⟩,
   ⟨"analytics", EvidenceStrength.MEDIUM, 8/10⟩,
   ⟨"experiment", EvidenceStrength.STRONG, 8/10⟩,
   ⟨"experiment", EvidenceStrength.MEDIUM, 8/10⟩,
   ⟨"experiment", EvidenceStrength.MEDIUM, 8/10⟩,
   ⟨"experiment", EvidenceStrength.MEDIUM, 8/10⟩,
   ⟨"experiment", EvidenceStrength.MEDIUM, 8/10⟩,
   ⟨"experiment", EvidenceStrength.MEDIUM, 8/10⟩,
   ⟨"desk", EvidenceStrength.WEAK, 8/10⟩]

/-- One more qualifying experiment of the same quality as
`saturatedEvidence`. -/
def extraExperiment : Evidence := ⟨"experiment", EvidenceStrength.MEDIUM, 8/10⟩

end GateScoring

namespace CrewRuntime

theorem truncate_length_le (s : String) (n : Nat) : (truncate s n).length ≤ n := by
  show (s.data.take n).length ≤ n
  simpa using List.length_take_le n s.data

set_option maxRecDepth 8000 in
theorem stageBranch_goals (sid : Nat) (mc ml : String) (b : Bool) :
    ∀ gs g, (stageBranch sid mc ml b).2.2.three_month_goals = some gs → g ∈ gs →
      g.length ≤ 200 := by
  intro gs g hgs hg
  match sid with
  | 0 =>
    (try simp only [stageBranch, emptyBrief] at hgs)
    (try split_ifs at hgs)
    all_goals
      first
        | exact Option.noConfusion hgs
        | (obtain rfl := Option.some.inj hgs; rw [List.mem_singleton] at hg; subst hg;
            exact truncate_length_le ..)
  | 1 =>
    (try simp only [stageBranch, emptyBrief] at hgs)
    (try split_ifs at hgs)
    all_goals
      first
        | exact Option.noConfusion hgs
        | (obtain rfl := Option.some.inj hgs; rw [List.mem_singleton] at hg; subst hg;
            exact truncate_length_le ..)
  | 2 =>
    (try simp only [stageBranch, emptyBrief] at hgs)
    (try split_ifs at hgs)
    all_goals
      first
        | exact Option.noConfusion hgs
        | (obtain rfl := Option.some.inj hgs; rw [List.mem_singleton] at hg; subst hg;
            exact truncate_length_le ..)
  | 3 =>
    (try simp only [stageBranch, emptyBrief] at hgs)
    (try split_ifs at hgs)
    all_goals
      first
        | exact Option.noConfusion hgs
        | (obtain rfl := Option.some.inj hgs; rw [List.mem_singleton] at hg; subst hg;
            exact truncate_length_le ..)
  | 4 =>
    (try simp only [stageBranch, emptyBrief] at hgs)
    (try split_ifs at hgs)
    all_goals
      first
        | exact Option.noConfusion hgs
        | (obtain rfl := Option.some.inj hgs; rw [List.mem_singleton] at hg; subst hg;
            exact truncate_length_le ..)
  | 5 =>
    (try simp only [stageBranch, emptyBrief] at hgs)
    (try split_ifs at hgs)
    all_goals
      first
        | exact Option.noConfusion hgs
        | (obtain rfl := Option.some.inj hgs; rw [List.mem_singleton] at hg; subst hg;
            exact truncate_length_le ..)
  | 6 =>
    (try simp only [stageBranch, emptyBrief] at hgs)
    (try split_ifs at hgs)
    all_goals
      first
        | exact Option.noConfusion hgs
        | (obtain rfl := Option.some.inj hgs; rw [List.mem_singleton] at hg; subst hg;
            exact truncate_length_le ..)
  | 7 =>
    (try simp only [stageBranch, emptyBrief] at hgs)
    (try split_ifs at hgs)
    all_goals
      first
        | exact Option.noConfusion hgs
        | (obtain rfl := Option.some.inj hgs; rw [List.mem_singleton] at hg; subst hg;
            exact truncate_length_le ..)
  | (_+8) =>
    (try simp only [stageBranch, emptyBrief] at hgs)
    (try split_ifs at hgs)
    all_goals
      first
        | exact Option.noConfusion hgs
        | (obtain rfl := Option.some.inj hgs; rw [List.mem_singleton] at hg; subst hg;
            exact truncate_length_le ..)

set_option maxRecDepth 8000 in
theorem stageBranch_pd (sid : Nat) (mc ml : String) (b : Bool) :
    ∀ s, (stageBranch sid mc ml b).2.2.problem_description = some s → s.length ≤ 500 := by
  intro s hs
  match sid with
  | 0 =>
    (try simp only [stageBranch, emptyBrief] at hs)
    (try split_ifs at hs)
    all_goals
      first
        | exact Option.noConfusion hs
        | (obtain rfl := Option.some.inj hs; exact truncate_length_le ..)
  | 1 =>
    (try simp only [stageBranch, emptyBrief] at hs)
    (try split_ifs at hs)
    all_goals
      first
        | exact Option.noConfusion hs
        | (obtain rfl := Option.some.inj hs; exact truncate_length_le ..)
  | 2 =>
    (try simp only [stageBranch, emptyBrief] at hs)
    (try split_ifs at hs)
    all_goals
      first
        | exact Option.noConfusion hs
        | (obtain rfl := Option.some.inj hs; exact truncate_length_le ..)
  | 3 =>
    (try simp only [stageBranch, emptyBrief] at hs)
    (try split_ifs at hs)
    all_goals
      first
        | exact Option.noConfusion hs
        | (obtain rfl := Option.some.inj hs; exact truncate_length_le ..)
  | 4 =>
    (try simp only [stageBranch, emptyBrief] at hs)
    (try split_ifs at hs)
    all_goals
      first
        | exact Option.noConfusion hs
        | (obtain rfl := Option.some.inj hs; exact truncate_length_le ..)
  | 5 =>
    (try simp only [stageBranch, emptyBrief] at hs)
    (try split_ifs at hs)
    all_goals
      first
        | exact Option.noConfusion hs
        | (obtain rfl := Option.some.inj hs; exact truncate_length_le ..)
  | 6 =>
    (try simp only [stageBranch, emptyBrief] at hs)
    (try split_ifs at hs)
    all_goals
      first
        | exact Option.noConfusion hs
        | (obtain rfl := Option.some.inj hs; exact truncate_length_le ..)
  | 7 =>
    (try simp only [stageBranch, emptyBrief] at hs)
    (try split_ifs at hs)
    all_goals
      first
        | exact Option.noConfusion hs
        | (obtain rfl := Option.some.inj hs; exact truncate_length_le ..)
  | (_+8) =>
    (try simp only [stageBranch, emptyBrief] at hs)
    (try split_ifs at hs)
    all_goals
      first
        | exact Option.noConfusion hs
        | (obtain rfl := Option.some.inj hs; exact truncate_length_le ..)

set_option maxRecDepth 8000 in
theorem stageBranch_sd (sid : Nat) (mc ml : String) (b : Bool) :
    ∀ s, (stageBranch sid mc ml b).2.2.solution_description = some s → s.length ≤ 500 := by
  intro s hs
  match sid with
  | 0 =>
    (try simp only [stageBranch, emptyBrief] at hs)
    (try split_ifs at hs)
    all_goals
      first
        | exact Option.noConfusion hs
        | (obtain rfl := Option.some.inj hs; exact truncate_length_le ..)
  | 1 =>
    (try simp only [stageBranch, emptyBrief] at hs)
    (try split_ifs at hs)
    all_goals
      first
        | exact Option.noConfusion hs
        | (obtain rfl := Option.some.inj hs; exact truncate_length_le ..)
  | 2 =>
    (try simp only [stageBranch, emptyBrief] at hs)
    (try split_ifs at hs)
    all_goals
      first
        | exact Option.noConfusion hs
        | (obtain rfl := Option.some.inj hs; exact truncate_length_le ..)
  | 3 =>
    (try simp only [stageBranch, emptyBrief] at hs)
    (try split_ifs at hs)
    all_goals
      first
        | exact Option.noConfusion hs
        | (obtain rfl := Option.some.inj hs; exact truncate_length_le ..)
  | 4 =>
    (try simp only [stageBranch, emptyBrief] at hs)
    (try split_ifs at hs)
    all_goals
      first
        | exact Option.noConfusion hs
        | (obtain rfl := Option.some.inj hs; exact truncate_length_le ..)
  | 5 =>
    (try simp only [stageBranch, emptyBrief] at hs)
    (try split_ifs at hs)
    all_goals
      first
        | exact Option.noConfusion hs
        | (obtain rfl := Option.some.inj hs; exact truncate_length_le ..)
  | 6 =>
    (try simp only [stageBranch, emptyBrief] at hs)
    (try split_ifs at hs)
    all_goals
      first
        | exact Option.noConfusion hs
        | (obtain rfl := Option.some.inj hs; exact truncate_length_le ..)
  | 7 =>
    (try simp only [stageBranch, emptyBrief] at hs)
    (try split_ifs at hs)
    all_goals
      first
        | exact Option.noConfusion hs
        | (obtain rfl := Option.some.inj hs; exact truncate_length_le ..)
  | (_+8) =>
    (try simp only [stageBranch, emptyBrief] at hs)
    (try split_ifs at hs)
    all_goals
      first
        | exact Option.noConfusion hs
        | (obtain rfl := Option.some.inj hs; exact truncate_length_le ..)

end CrewRuntime

namespace GateScoring

theorem gateReasons_length (ev : List Evidence) (c : GateCriteria) :
    (gateReasons ev c).length = failingChecks ev c := by
  unfold gateReasons failingChecks
  cases totalCheck ev c <;> cases experimentsCheck ev c <;> cases qualityCheck ev c <;>
    cases typesCheck ev c <;> cases mixCheck ev c <;> simp

theorem totalReason_mem (ev : List Evidence) (c : GateCriteria)
    (h : totalCheck ev c = false) : totalReason ev c ∈ gateReasons ev c := by
  simp [gateReasons, h]

theorem experimentsReason_mem (ev : List Evidence) (c : GateCriteria)
    (h : experimentsCheck ev c = false) : experimentsReason ev c ∈ gateReasons ev c := by
  simp [gateReasons, h]

theorem qualityReason_mem (ev : List Evidence) (c : GateCriteria)
    (h : qualityCheck ev c = false) : qualityReason ∈ gateReasons ev c := by
  simp [gateReasons, h]

theorem typesReason_mem (ev : List Evidence) (c : GateCriteria)
    (h : typesCheck ev c = false) : typesReason ev c ∈ gateReasons ev c := by
  simp [gateReasons, h]

theorem mixReason_mem (ev : List Evidence) (c : GateCriteria)
    (h : mixCheck ev c = false) : mixReason ∈ gateReasons ev c := by
  simp [gateReasons, h]

theorem qualityReason_ne_totalReason (ev : List Evidence) (c : GateCriteria) :
    qualityReason ≠ totalReason ev c := by
  intro h
  have h1 : (totalReason ev c).data.head? = some 'I' := rfl
  rw [← h] at h1
  exact absurd h1 (by decide)

theorem qualityReason_ne_experimentsReason (ev : List Evidence) (c : GateCriteria) :
    qualityReason ≠ experimentsReason ev c := by
  intro h
  have h1 : (experimentsReason ev c).data.head? = some 'I' := rfl
  rw [← h] at h1
  exact absurd h1 (by decide)

theorem qualityReason_ne_typesReason (ev : List Evidence) (c : GateCriteria) :
    qualityReason ≠ typesReason ev c := by
  intro h
  have h1 : (typesReason ev c).data.head? = some 'M' := rfl
  rw [← h] at h1
  exact absurd h1 (by decide)

theorem qualityReason_ne_mixReason : qualityReason ≠ mixReason := by decide

theorem length_filter_mono {α : Type} (l : List α) (p q : α → Bool)
    (h : ∀ a, p a = true → q a = true) :
    (l.filter p).length ≤ (l.filter q).length := by
  induction l with
  | nil => simp
  | cons a l ih =>
    by_cases hp : p a = true
    · simp only [List.filter_cons, hp, h a hp, if_true, List.length_cons]
      exact Nat.succ_le_succ ih
    · have hp' : p a = false := by simpa using hp
      simp only [List.filter_cons, hp', Bool.false_eq_true, if_false]
      cases hq : q a
      · simpa [hq] using ih
      · simp only [if_true, List.length_cons]
        exact le_trans ih (Nat.le_succ _)

theorem sum_map_const_quality (ev : List Evidence) (q : ℚ)
    (h : ∀ x ∈ ev, x.quality_score = q) :
    (ev.map Evidence.quality_score).sum = q * ev.length := by
  induction ev with
  | nil => simp
  | cons a l ih =>
    have ha : a.quality_score = q := h a (by simp)
    have ih' := ih (fun x hx => h x (by simp [hx]))
    simp only [List.map_cons, List.sum_cons, ih', ha, List.length_cons]
    push_cast
    ring

theorem quality_const (ev : List Evidence) (q : ℚ) (hne : ev ≠ [])
    (h : ∀ x ∈ ev, x.quality_score = q) :
    calculate_evidence_quality ev = q := by
  have he' : ev.isEmpty = false := by simpa [List.isEmpty_iff] using hne
  have hlen : (ev.length : ℚ) ≠ 0 := by
    have : 0 < ev.length := List.length_pos.mpr hne
    positivity
  unfold calculate_evidence_quality
  rw [he']
  simp only [Bool.false_eq_true, if_false]
  rw [sum_map_const_quality ev q h, mul_div_assoc, div_self hlen, mul_one]

theorem natdiv_mono (n m T : Nat) (h : n ≤ m) : (n : ℚ) / T ≤ (m : ℚ) / T := by
  rcases Nat.eq_zero_or_pos T with hT | hT
  · simp [hT]
  · have hT' : (0 : ℚ) < T := by exact_mod_cast hT
    exact (div_le_div_iff_of_pos_right hT').mpr (by exact_mod_cast h)

theorem count_experiments_append_le (ev : List Evidence) (e : Evidence) :
    count_experiments ev ≤ count_experiments (ev ++ [e]) := by
  simp only [count_experiments, List.filter_append, List.length_append]
  exact Nat.le_add_right _ _

theorem types_mem_append (ev : List Evidence) (e : Evidence) (t : String)
    (h : (get_evidence_types ev).contains t = true) :
    (get_evidence_types (ev ++ [e])).contains t = true := by
  simp only [get_evidence_types, List.map_append] at h ⊢
  simp only [List.contains_eq_any_beq, List.any_eq_true, List.mem_dedup, List.mem_append,
    beq_iff_eq] at h ⊢
  obtain ⟨x, hx, hxe⟩ := h
  exact ⟨x, Or.inl hx, hxe⟩

end GateScoring

namespace GateScoring

/-- C1: for every stage and well-formed evidence list, `evaluate_gate`
returns PENDING with no reasons exactly on empty evidence, PASSED exactly
when evidence is non-empty and no reason was collected, and FAILED
otherwise; on non-empty evidence the reasons list holds exactly one
human-readable reason per failing check (total count, experiments, mean
quality, required types, strength mix), with no short-circuiting. -/
theorem evaluate_gate_status_and_reasons (stage : GateStage) (ev : List Evidence) :
    ((evaluate_gate stage ev).1 = GateStatus.PENDING ↔ ev = []) ∧
    ((evaluate_gate stage ev).1 = GateStatus.PASSED ↔
      ev ≠ [] ∧ (evaluate_gate stage ev).2 = []) ∧
    ((evaluate_gate stage ev).1 = GateStatus.FAILED ↔
      ev ≠ [] ∧ (evaluate_gate stage ev).2 ≠ []) ∧
    (ev = [] → (evaluate_gate stage ev).2 = []) ∧
    (ev ≠ [] →
      (evaluate_gate stage ev).2.length = failingChecks ev (DEFAULT_GATE_CRITERIA stage) ∧
      (totalCheck ev (DEFAULT_GATE_CRITERIA stage) = false →
        totalReason ev (DEFAULT_GATE_CRITERIA stage) ∈ (evaluate_gate stage ev).2) ∧
      (experimentsCheck ev (DEFAULT_GATE_CRITERIA stage) = false →
        experimentsReason ev (DEFAULT_GATE_CRITERIA stage) ∈ (evaluate_gate stage ev).2) ∧
      (qualityCheck ev (DEFAULT_GATE_CRITERIA stage) = false →
        qualityReason ∈ (evaluate_gate stage ev).2) ∧
      (typesCheck ev (DEFAULT_GATE_CRITERIA stage) = false →
        typesReason ev (DEFAULT_GATE_CRITERIA stage) ∈ (evaluate_gate stage ev).2) ∧
      (mixCheck ev (DEFAULT_GATE_CRITERIA stage) = false →
        mixReason ∈ (evaluate_gate stage ev).2)) := by
  by_cases he : ev = []
  · subst he
    simp [evaluate_gate]
  · have he' : ev.isEmpty = false := by
      simpa [List.isEmpty_iff] using he
    unfold evaluate_gate
    simp only [Option.getD_none, he', Bool.false_eq_true, if_false]
    refine ⟨?_, ?_, ?_, fun hcon => absurd hcon he, fun _ => ?_⟩
    · split_ifs <;> simp [he]
    · split_ifs with hE
      · simp [he, List.isEmpty_iff.mp hE]
      · have hr' : gateReasons ev (DEFAULT_GATE_CRITERIA stage) ≠ [] := by
          simpa [List.isEmpty_iff] using hE
        simp [he, hr']
    · split_ifs with hE
      · simp [he, List.isEmpty_iff.mp hE]
      · have hr' : gateReasons ev (DEFAULT_GATE_CRITERIA stage) ≠ [] := by
          simpa [List.isEmpty_iff] using hE
        simp [he, hr']
    · exact ⟨gateReasons_length ev _, fun h => totalReason_mem ev _ h,
        fun h => experimentsReason_mem ev _ h, fun h => qualityReason_mem ev _ h,
        fun h => typesReason_mem ev _ h, fun h => mixReason_mem ev _ h⟩

/-- C1 witness: instantiating the theorem at DESIRABILITY and the empty
evidence list yields the concrete PENDING verdict. -/
theorem evaluate_gate_status_and_reasons_witness :
    (evaluate_gate GateStage.DESIRABILITY []).1 = GateStatus.PENDING :=
  (evaluate_gate_status_and_reasons GateStage.DESIRABILITY []).1.mpr rfl

/-- C5: the mean-quality check is inclusive at the boundary — a mean
exactly equal to the stage's `min_evidence_quality` passes the check and
no "Evidence quality too low" reason is emitted, while any mean strictly
below it (in particular one unit below) fails the check and the
"Evidence quality too low" reason appears in the returned reasons. -/
theorem quality_boundary_inclusive (stage : GateStage) (ev : List Evidence)
    (h : ev ≠ []) :
    (calculate_evidence_quality ev = (DEFAULT_GATE_CRITERIA stage).min_evidence_quality →
      qualityCheck ev (DEFAULT_GATE_CRITERIA stage) = true ∧
      qualityReason ∉ (evaluate_gate stage ev).2) ∧
    (calculate_evidence_quality ev < (DEFAULT_GATE_CRITERIA stage).min_evidence_quality →
      qualityCheck ev (DEFAULT_GATE_CRITERIA stage) = false ∧
      qualityReason ∈ (evaluate_gate stage ev).2) := by
  have he' : ev.isEmpty = false := by simpa [List.isEmpty_iff] using h
  constructor
  · intro heq
    have hq : qualityCheck ev (DEFAULT_GATE_CRITERIA stage) = true := by
      simp [qualityCheck, heq]
    refine ⟨hq, ?_⟩
    unfold evaluate_gate
    simp only [Option.getD_none, he', Bool.false_eq_true, if_false]
    unfold gateReasons
    simp only [hq, if_true]
    intro hmem
    rcases List.mem_append.1 hmem with hmem | hmem
    · rcases List.mem_append.1 hmem with hmem | hmem
      · rcases List.mem_append.1 hmem with hmem | hmem
        · rcases List.mem_append.1 hmem with hmem | hmem
          · split_ifs at hmem <;> simp_all
            exact qualityReason_ne_totalReason ev _ hmem
          · split_ifs at hmem <;> simp_all
            exact qualityReason_ne_experimentsReason ev _ hmem
        · simp at hmem
      · split_ifs at hmem <;> simp_all
        exact qualityReason_ne_typesReason ev _ hmem
    · split_ifs at hmem <;> simp_all
      exact qualityReason_ne_mixReason hmem
  · intro hlt
    have hq : qualityCheck ev (DEFAULT_GATE_CRITERIA stage) = false := by
      simp [qualityCheck]
      linarith
    refine ⟨hq, ?_⟩
    unfold evaluate_gate
    simp only [Option.getD_none, he', Bool.false_eq_true, if_false]
    exact qualityReason_mem ev _ hq

/-- C5 witness: the 11-item boundary fixture whose mean quality is exactly
0.7 draws no "Evidence quality too low" reason at the DESIRABILITY gate. -/
theorem quality_boundary_inclusive_witness :
    qualityReason ∉ (evaluate_gate GateStage.DESIRABILITY boundaryEvidence).2 := by
  have h := (quality_boundary_inclusive GateStage.DESIRABILITY boundaryEvidence
    (by decide)).1
    (by norm_num [calculate_evidence_quality, boundaryEvidence, DEFAULT_GATE_CRITERIA])
  exact h.2

/-- C6: in `DEFAULT_GATE_CRITERIA`, `min_experiments`,
`min_evidence_quality` and `min_total_evidence` are each strictly
increasing along DESIRABILITY → FEASIBILITY → VIABILITY → SCALE. -/
theorem default_criteria_strictly_escalating :
    (DEFAULT_GATE_CRITERIA GateStage.DESIRABILITY).min_experiments <
        (DEFAULT_GATE_CRITERIA GateStage.FEASIBILITY).min_experiments ∧
    (DEFAULT_GATE_CRITERIA GateStage.FEASIBILITY).min_experiments <
        (DEFAULT_GATE_CRITERIA GateStage.VIABILITY).min_experiments ∧
    (DEFAULT_GATE_CRITERIA GateStage.VIABILITY).min_experiments <
        (DEFAULT_GATE_CRITERIA GateStage.SCALE).min_experiments ∧
    (DEFAULT_GATE_CRITERIA GateStage.DESIRABILITY).min_evidence_quality <
        (DEFAULT_GATE_CRITERIA GateStage.FEASIBILITY).min_evidence_quality ∧
    (DEFAULT_GATE_CRITERIA GateStage.FEASIBILITY).min_evidence_quality <
        (DEFAULT_GATE_CRITERIA GateStage.VIABILITY).min_evidence_quality ∧
    (DEFAULT_GATE_CRITERIA GateStage.VIABILITY).min_evidence_quality <
        (DEFAULT_GATE_CRITERIA GateStage.SCALE).min_evidence_quality ∧
    (DEFAULT_GATE_CRITERIA GateStage.DESIRABILITY).min_total_evidence <
        (DEFAULT_GATE_CRITERIA GateStage.FEASIBILITY).min_total_evidence ∧
    (DEFAULT_GATE_CRITERIA GateStage.FEASIBILITY).min_total_evidence <
        (DEFAULT_GATE_CRITERIA GateStage.VIABILITY).min_total_evidence ∧
    (DEFAULT_GATE_CRITERIA GateStage.VIABILITY).min_total_evidence <
        (DEFAULT_GATE_CRITERIA GateStage.SCALE).min_total_evidence := by
  norm_num [DEFAULT_GATE_CRITERIA]

end GateScoring

namespace GateScoring

/-- C4 counterexample: the readiness score is NOT strictly increasing in
evidence count — appending one more qualifying experiment of the same
quality to an already saturating DESIRABILITY collection leaves the score
unchanged. -/
theorem readiness_score_not_strictly_increasing :
    calculate_gate_readiness_score GateStage.DESIRABILITY
        (saturatedEvidence ++ [extraExperiment]) =
      calculate_gate_readiness_score GateStage.DESIRABILITY saturatedEvidence := by
  have m1 : calculate_evidence_quality saturatedEvidence = 8/10 :=
    quality_const _ _ (by decide) (by simp [saturatedEvidence])
  have m2 : calculate_evidence_quality (saturatedEvidence ++ [extraExperiment]) = 8/10 :=
    quality_const _ _ (by simp) (by simp [saturatedEvidence, extraExperiment])
  have c1 : count_experiments saturatedEvidence = 6 := by decide
  have c2 : count_experiments (saturatedEvidence ++ [extraExperiment]) = 7 := by decide
  have l1 : saturatedEvidence.length = 12 := by decide
  have l2 : (saturatedEvidence ++ [extraExperiment]).length = 13 := by decide
  have f1 : (List.filter (fun t => (get_evidence_types saturatedEvidence).contains t)
      (DEFAULT_GATE_CRITERIA GateStage.DESIRABILITY).required_evidence_types).length = 3 := by
    decide
  have f2 : (List.filter
      (fun t => (get_evidence_types (saturatedEvidence ++ [extraExperiment])).contains t)
      (DEFAULT_GATE_CRITERIA GateStage.DESIRABILITY).required_evidence_types).length = 3 := by
    decide
  unfold calculate_gate_readiness_score
  rw [if_neg (by decide), if_neg (by decide)]
  dsimp only
  rw [m1, m2, c1, c2, l1, l2, f1, f2]
  norm_num [DEFAULT_GATE_CRITERIA, min_def]

/-- C4 (amended): the readiness score is 0.0 on empty evidence; it is
monotonically NON-DECREASING (not strictly increasing) as qualifying
evidence items are appended one at a time holding their quality constant;
and it reaches at least 0.9 on evidence that fully satisfies all of the
stage's default criteria. -/
theorem readiness_score_zero_monotone_high :
    (∀ stage, calculate_gate_readiness_score stage [] = 0) ∧
    (∀ stage (ev : List Evidence) (e : Evidence) (q : ℚ), 0 ≤ q →
      (∀ x ∈ ev, x.quality_score = q) → e.quality_score = q →
      calculate_gate_readiness_score stage ev ≤
        calculate_gate_readiness_score stage (ev ++ [e])) ∧
    (∀ stage (ev : List Evidence), ev ≠ [] →
      totalCheck ev (DEFAULT_GATE_CRITERIA stage) = true →
      experimentsCheck ev (DEFAULT_GATE_CRITERIA stage) = true →
      qualityCheck ev (DEFAULT_GATE_CRITERIA stage) = true →
      typesCheck ev (DEFAULT_GATE_CRITERIA stage) = true →
      mixCheck ev (DEFAULT_GATE_CRITERIA stage) = true →
      9/10 ≤ calculate_gate_readiness_score stage ev) := by
  refine ⟨?_, ?_, ?_⟩
  · intro stage
    simp [calculate_gate_readiness_score]
  · intro stage ev e q hq hall he
    unfold calculate_gate_readiness_score
    rcases eq_or_ne ev [] with rfl | hne
    · have hq1 : calculate_evidence_quality ([] ++ [e]) = q := by
        apply quality_const _ q (by simp)
        intro x hx
        simp at hx
        subst hx
        exact he
      simp only [List.nil_append] at hq1 ⊢
      simp only [List.isEmpty_nil, if_true, hq1]
      have h1 : (0:ℚ) ≤ min ((([e] : List Evidence).length : ℚ) /
          ((DEFAULT_GATE_CRITERIA stage).min_total_evidence : ℚ)) 1 :=
        le_min (by positivity) (by norm_num)
      have h2 : (0:ℚ) ≤ min ((count_experiments [e] : ℚ) /
          ((DEFAULT_GATE_CRITERIA stage).min_experiments : ℚ)) 1 :=
        le_min (by positivity) (by norm_num)
      have h4 : (0:ℚ) ≤
          ((((DEFAULT_GATE_CRITERIA stage).required_evidence_types.filter
            (fun t => (get_evidence_types [e]).contains t)).length : ℚ) /
          ((DEFAULT_GATE_CRITERIA stage).required_evidence_types.length : ℚ)) := by
        positivity
      rw [if_neg (by simp)]
      have : (0:ℚ) ≤ q := hq
      apply div_nonneg _ (by norm_num)
      linarith
    · have hne2 : ev ++ [e] ≠ [] := by simp
      have hq1 : calculate_evidence_quality ev = q := quality_const ev q hne hall
      have hq2 : calculate_evidence_quality (ev ++ [e]) = q := by
        apply quality_const _ q hne2
        intro x hx
        rcases List.mem_append.1 hx with hx | hx
        · exact hall x hx
        · simp at hx
          subst hx
          exact he
      have he1 : ev.isEmpty = false := by simpa [List.isEmpty_iff] using hne
      have he2 : (ev ++ [e]).isEmpty = false := by
        simpa [List.isEmpty_iff] using hne2
      rw [if_neg (by simp [he1]), if_neg (by simp [he2]), hq1, hq2]
      apply div_le_div_of_nonneg_right ?_ (by norm_num)
      refine add_le_add (add_le_add (add_le_add ?_ ?_) le_rfl) ?_
      · exact min_le_min (natdiv_mono _ _ _ (by simp)) le_rfl
      · exact min_le_min (natdiv_mono _ _ _ (count_experiments_append_le ev e)) le_rfl
      · exact natdiv_mono _ _ _
          (length_filter_mono _ _ _ (fun a ha => types_mem_append ev e a ha))
  · intro stage ev hne hTot hExp hQual hTy hMix
    have he' : ev.isEmpty = false := by simpa [List.isEmpty_iff] using hne
    have hTpos : 0 < (DEFAULT_GATE_CRITERIA stage).min_total_evidence := by
      cases stage <;> decide
    have hEpos : 0 < (DEFAULT_GATE_CRITERIA stage).min_experiments := by
      cases stage <;> decide
    have hreq : (DEFAULT_GATE_CRITERIA stage).required_evidence_types.length = 3 := by
      cases stage <;> rfl
    have hq7 : 7/10 ≤ (DEFAULT_GATE_CRITERIA stage).min_evidence_quality := by
      cases stage <;> norm_num [DEFAULT_GATE_CRITERIA]
    have hTot' : (DEFAULT_GATE_CRITERIA stage).min_total_evidence ≤ ev.length := by
      simpa [totalCheck] using hTot
    have hExp' : (DEFAULT_GATE_CRITERIA stage).min_experiments ≤ count_experiments ev := by
      simpa [experimentsCheck] using hExp
    have hQual' : (DEFAULT_GATE_CRITERIA stage).min_evidence_quality ≤
        calculate_evidence_quality ev := by
      simpa [qualityCheck] using hQual
    have hTy' : ∀ t ∈ (DEFAULT_GATE_CRITERIA stage).required_evidence_types,
        (get_evidence_types ev).contains t = true := by
      simpa [typesCheck, List.all_eq_true] using hTy
    have hT1 : min ((ev.length : ℚ) /
        ((DEFAULT_GATE_CRITERIA stage).min_total_evidence : ℚ)) 1 = 1 := by
      apply min_eq_right
      rw [le_div_iff₀ (by exact_mod_cast hTpos), one_mul]
      exact_mod_cast hTot'
    have hE1 : min ((count_experiments ev : ℚ) /
        ((DEFAULT_GATE_CRITERIA stage).min_experiments : ℚ)) 1 = 1 := by
      apply min_eq_right
      rw [le_div_iff₀ (by exact_mod_cast hEpos), one_mul]
      exact_mod_cast hExp'
    have hfil : ((DEFAULT_GATE_CRITERIA stage).required_evidence_types.filter
        (fun t => (get_evidence_types ev).contains t)) =
        (DEFAULT_GATE_CRITERIA stage).required_evidence_types :=
      List.filter_eq_self.mpr hTy'
    have hTy1 : (((DEFAULT_GATE_CRITERIA stage).required_evidence_types.filter
        (fun t => (get_evidence_types ev).contains t)).length : ℚ) /
        ((DEFAULT_GATE_CRITERIA stage).required_evidence_types.length : ℚ) = 1 := by
      rw [hfil, div_self]
      rw [hreq]
      norm_num
    unfold calculate_gate_readiness_score
    rw [if_neg (by simp [he'])]
    dsimp only
    rw [hT1, hE1, hTy1]
    have hmean : 7/10 ≤ calculate_evidence_quality ev := le_trans hq7 hQual'
    linarith

/-- C4 witness: the saturating 12-item DESIRABILITY fixture, which
satisfies every check, scores at least 0.9. -/
theorem readiness_score_zero_monotone_high_witness :
    (9:ℚ)/10 ≤ calculate_gate_readiness_score GateStage.DESIRABILITY saturatedEvidence := by
  have h := readiness_score_zero_monotone_high.2.2 GateStage.DESIRABILITY saturatedEvidence
    (by decide) (by decide) (by decide)
    (by norm_num [qualityCheck, calculate_evidence_quality, saturatedEvidence,
      DEFAULT_GATE_CRITERIA])
    (by decide) (by decide)
  exact h

end GateScoring

namespace CrewRuntime

/-- C2 counterexample: a message of exactly 50 characters (after
stripping) that contains the marker "specifically" is labelled "low",
not "high" — the length test in the source is strict (`> 50`), so "at
least 50 characters" is not sufficient. -/
theorem clarity_at_exactly_fifty_chars_is_low :
    fiftyCharMessage.length = 50 ∧
    pyStrip fiftyCharMessage = fiftyCharMessage ∧
    hasSpecificityMarker fiftyCharMessage = true ∧
    (processMessage "s" fiftyCharMessage 1 [] [] "t").quality_signals.clarity.label
      = "low" := by
  refine ⟨by decide, by decide, by decide, by decide⟩

/-- C2 (amended): the clarity label is "high" (score 0.92) when the
stripped message is STRICTLY longer than 50 characters and contains a
specificity marker, "medium" (0.68) when strictly longer than 50 without a
marker, else "low" (0.38); the completeness label is "complete" (1.0) when
the stage progress computed this turn reaches the stage's threshold,
"partial" (0.66) when that progress exceeds 50, else "insufficient"
(0.35). -/
theorem quality_signal_labels_spec (sess msg : String) (cs : Int)
    (hist : List HistoryTurn) (sd : List (String × String)) (now : String) :
    (processMessage sess msg cs hist sd now).quality_signals.clarity.label =
      (if (pyStrip msg).length > 50 ∧ hasSpecificityMarker (pyStrip msg) then "high"
       else if (pyStrip msg).length > 50 then "medium" else "low") ∧
    (processMessage sess msg cs hist sd now).quality_signals.clarity.score =
      CLARITY_SCORES (processMessage sess msg cs hist sd now).quality_signals.clarity.label ∧
    CLARITY_SCORES "high" = 92/100 ∧ CLARITY_SCORES "medium" = 68/100 ∧
    CLARITY_SCORES "low" = 38/100 ∧
    (processMessage sess msg cs hist sd now).quality_signals.completeness.label =
      (if min 100 (hist.length * 15 + (if (pyStrip msg).length > 50 then 20 else 10) +
            (if hasSpecificityMarker (pyStrip msg) then 15 else 0)) ≥
          (stageConfig (stageIdOf cs)).progress_threshold then "complete"
       else if min 100 (hist.length * 15 + (if (pyStrip msg).length > 50 then 20 else 10) +
            (if hasSpecificityMarker (pyStrip msg) then 15 else 0)) > 50 then "partial"
       else "insufficient") ∧
    (processMessage sess msg cs hist sd now).quality_signals.completeness.score =
      COMPLETENESS_SCORES
        (processMessage sess msg cs hist sd now).quality_signals.completeness.label ∧
    COMPLETENESS_SCORES "complete" = 1 ∧ COMPLETENESS_SCORES "partial" = 66/100 ∧
    COMPLETENESS_SCORES "insufficient" = 35/100 := by
  unfold processMessage
  dsimp only
  refine ⟨rfl, rfl, rfl, rfl, rfl, rfl, rfl, rfl, rfl, rfl⟩

/-- C3 counterexample: at stage 7 a completing turn (six prior turns give
progress 100 ≥ threshold 85) marks the stage complete but does NOT advance
`current_stage` to 8, does NOT reset the reported stage progress to 0, and
returns a non-empty follow-up question. -/
theorem stage_seven_completion_does_not_advance :
    ((processMessage "s" "my goal" 7 sixTurnHistory [] "t").stage_state.is_stage_complete
        = true) ∧
    (processMessage "s" "my goal" 7 sixTurnHistory [] "t").stage_state.current_stage = 7 ∧
    (processMessage "s" "my goal" 7 sixTurnHistory [] "t").stage_state.stage_progress
      = 100 ∧
    (processMessage "s" "my goal" 7 sixTurnHistory [] "t").follow_up_question ≠ "" := by
  refine ⟨by decide, by decide, by decide, by decide⟩

/-- C3 (amended): for stages 1..6, whenever the accumulated stage progress
reaches the stage's threshold, the result marks the stage complete,
advances `current_stage` to stage+1, resets the reported stage-local
progress to 0, and returns an empty follow-up question; stage 7 completes
without advancing. -/
theorem stage_completion_advances_and_resets (sess msg : String) (cs : Int)
    (hist : List HistoryTurn) (sd : List (String × String)) (now : String)
    (h1 : 1 ≤ cs) (h6 : cs ≤ 6)
    (hc : min 100 (hist.length * 15 + (if (pyStrip msg).length > 50 then 20 else 10) +
        (if hasSpecificityMarker (pyStrip msg) then 15 else 0)) ≥
      (stageConfig (stageIdOf cs)).progress_threshold) :
    (processMessage sess msg cs hist sd now).stage_state.is_stage_complete = true ∧
    (processMessage sess msg cs hist sd now).stage_state.current_stage = cs.toNat + 1 ∧
    (processMessage sess msg cs hist sd now).stage_state.stage_progress = 0 ∧
    (processMessage sess msg cs hist sd now).follow_up_question = "" := by
  unfold processMessage
  have hid : stageIdOf cs = cs.toNat ∧ cs.toNat < TOTAL_STAGES := by
    interval_cases cs <;> simp [stageIdOf, CONVERSATION_STAGES, TOTAL_STAGES]
  rw [hid.1] at hc ⊢
  have hlt := hid.2
  dsimp only
  refine ⟨?_, ?_, ?_, ?_⟩ <;> simp [hc, hlt]

/-- C3 witness: a completing stage-1 turn (six prior turns, marker-bearing
message) advances the session to stage 2. -/
theorem stage_completion_advances_witness :
    (processMessage "s" fiftyCharMessage 1 sixTurnHistory [] "t").stage_state.current_stage
      = 2 := by
  have h := stage_completion_advances_and_resets "s" fiftyCharMessage 1 sixTurnHistory []
    "t" (by decide) (by decide) (by decide)
  exact h.2.1

/-- C7 counterexample: the conversation engine does NOT surface a
validation error for an out-of-range stage — `process_message` with
`current_stage = 99` silently behaves exactly as stage 1. -/
theorem out_of_range_stage_silently_defaults :
    processMessage "s" "hello" 99 [] [] "t" = processMessage "s" "hello" 1 [] [] "t" := rfl

/-- C7 (amended): the gate-evaluate HTTP handler rejects an unknown stage
key with a 400 validation error (and accepts known keys), but the
conversation engine silently substitutes stage 1 for any `current_stage`
outside 1..7 rather than erroring. -/
theorem stage_validation_and_engine_default :
    (∀ s, GateEvaluate.parseGateStage s = none →
      GateEvaluate.validateStage s =
        Except.error (400,
          s!"Invalid stage: {s}. Must be DESIRABILITY, FEASIBILITY, VIABILITY, or SCALE")) ∧
    (∀ st, GateEvaluate.parseGateStage st = some GateScoring.GateStage.DESIRABILITY →
      GateEvaluate.validateStage st = Except.ok GateScoring.GateStage.DESIRABILITY) ∧
    (∀ (cs : Int), (CONVERSATION_STAGES cs).isSome = false →
      ∀ sess msg hist sd now,
        processMessage sess msg cs hist sd now = processMessage sess msg 1 hist sd now) := by
  refine ⟨?_, ?_, ?_⟩
  · intro s h
    unfold GateEvaluate.validateStage
    rw [h]
  · intro st h
    unfold GateEvaluate.validateStage
    rw [h]
  · intro cs h sess msg hist sd now
    unfold processMessage
    have h1 : stageIdOf cs = 1 := by simp [stageIdOf, h]
    have h2 : stageIdOf 1 = 1 := by decide
    rw [h1, h2]

/-- C7 witness: the unknown key "BOGUS" draws the 400 validation error,
and `current_stage = 42` is silently treated as stage 1. -/
theorem stage_validation_and_engine_default_witness :
    GateEvaluate.validateStage "BOGUS" =
      Except.error (400,
        "Invalid stage: BOGUS. Must be DESIRABILITY, FEASIBILITY, VIABILITY, or SCALE") ∧
    processMessage "m" "hi" 42 [] [] "t" = processMessage "m" "hi" 1 [] [] "t" := by
  constructor
  · exact stage_validation_and_engine_default.1 "BOGUS" (by decide)
  · exact stage_validation_and_engine_default.2.2 42 (by decide) "m" "hi" [] [] "t"

/-- C8 counterexample: two `process_message` calls with identical explicit
arguments but different wall-clock readings return different results — the
snapshot's `updated_at` field records `datetime.utcnow()`. -/
theorem process_message_depends_on_clock :
    processMessage "s" "hello" 1 [] [] "2025-01-01T00:00:00" ≠
      processMessage "s" "hello" 1 [] [] "2025-01-01T00:00:01" := by
  intro h
  exact absurd (congrArg (fun r => r.stage_snapshot.updated_at) h) (by decide)

/-- C8 (amended): both engine entry points are deterministic functions of
their explicit arguments plus the wall-clock reading, and the clock
influences nothing but the snapshot's `updated_at` field: erasing that
field makes results at any two clock readings equal. -/
theorem deterministic_up_to_timestamp (sess msg : String) (cs : Int)
    (hist : List HistoryTurn) (sd : List (String × String)) (now1 now2 : String)
    (plan : String) (uc : Option (List (String × String))) :
    eraseTimestamp (processMessage sess msg cs hist sd now1) =
      eraseTimestamp (processMessage sess msg cs hist sd now2) ∧
    eraseSeedTimestamp (startSession plan uc now1) =
      eraseSeedTimestamp (startSession plan uc now2) := ⟨rfl, rfl⟩

/-- C9: for every history and message, the stage progress computed by
`process_message` is clamped to [0, 100] — in particular it never exceeds
100, in both the metrics and the stage-state payload. -/
theorem stage_progress_clamped (sess msg : String) (cs : Int)
    (hist : List HistoryTurn) (sd : List (String × String)) (now : String) :
    (processMessage sess msg cs hist sd now).conversation_metrics.stage_progress ≤ 100 ∧
    (processMessage sess msg cs hist sd now).stage_state.stage_progress ≤ 100 := by
  unfold processMessage
  dsimp only
  constructor <;> (repeat' split) <;> omega

/-- C10: every free-text field extracted from the user message is
length-bounded regardless of the message: `problem_description` and
`solution_description` to 500 characters, each `three_month_goals` entry
to 200, and the snapshot's `last_message_excerpt` to 240. -/
theorem extracted_fields_length_bounded (sess msg : String) (cs : Int)
    (hist : List HistoryTurn) (sd : List (String × String)) (now : String) :
    (∀ s, (processMessage sess msg cs hist sd now).brief_update.problem_description = some s →
      s.length ≤ 500) ∧
    (∀ s, (processMessage sess msg cs hist sd now).brief_update.solution_description = some s →
      s.length ≤ 500) ∧
    (∀ gs g, (processMessage sess msg cs hist sd now).brief_update.three_month_goals = some gs →
      g ∈ gs → g.length ≤ 200) ∧
    (processMessage sess msg cs hist sd now).stage_snapshot.last_message_excerpt.length
      ≤ 240 := by
  unfold processMessage
  dsimp only [buildStageSnapshot]
  exact ⟨fun s hs => stageBranch_pd _ _ _ _ s hs,
         fun s hs => stageBranch_sd _ _ _ _ s hs,
         fun gs g hgs hg => stageBranch_goals _ _ _ _ gs g hgs hg,
         truncate_length_le ..⟩

/-- C10 witness: on a concrete long stage-3 message the extracted
`problem_description` is within the 500-character bound. -/
theorem extracted_fields_length_bounded_witness :
    ((processMessage "s" "hello world" 3 [] [] "t").brief_update.problem_description.getD
      "").length ≤ 500 := by
  have h := extracted_fields_length_bounded "s" "hello world" 3 [] [] "t"
  cases hpd : (processMessage "s" "hello world" 3 [] [] "t").brief_update.problem_description
  · simp
  · simpa [hpd] using h.1 _ hpd

end CrewRuntime
